import Mathlib

/-!
Shallow embedding of the access-control layer of the Discord MCP server
(`app/auth/middleware.py`, `app/main.py`, `app/config.py`).

Machine words are modelled as `Nat` reduced modulo `2 ^ 32` where the Python
code relies on 32-bit arithmetic (inside SHA-256); byte strings are
`List Nat` with every element below 256; Python `str` values are Lean
`String`, and Python string primitives (`len`, slicing, `startswith`,
`replace`, `or` on optionals) are embedded as explicit functions on
`String` below.
-/

/-! ## Bytes and 32-bit words -/

/-- Truncation to a 32-bit word. -/
def mod32 (x : Nat) : Nat := x % 4294967296

/-- Right rotation of a 32-bit word by `n` places. -/
def rotr32 (n w : Nat) : Nat := Nat.lor (w >>> n) (mod32 (w <<< (32 - n)))

/-- Bitwise complement of a 32-bit word. -/
def not32 (w : Nat) : Nat := Nat.xor w 4294967295

/-! ## SHA-256 (FIPS 180-4), the hash `hashlib.sha256` provides -/

/-- The eight 32-bit words of a SHA-256 hash state. -/
structure Sha256State where
  h0 : Nat
  h1 : Nat
  h2 : Nat
  h3 : Nat
  h4 : Nat
  h5 : Nat
  h6 : Nat
  h7 : Nat
  deriving DecidableEq

/-- Initial SHA-256 hash state (FIPS 180-4 constants, written in decimal). -/
def shaInit : Sha256State :=
  ⟨1779033703, 3144134277, 1013904242, 2773480762,
   1359893119, 2600822924, 528734635, 1541459225⟩

/-- The 64 SHA-256 round constants of FIPS 180-4, written in decimal. -/
def shaK : List Nat :=
  [1116352408, 1899447441, 3049323471, 3921009573, 961987163,
   1508970993, 2453635748, 2870763221, 3624381080, 310598401,
   607225278, 1426881987, 1925078388, 2162078206, 2614888103,
   3248222580, 3835390401, 4022224774, 264347078, 604807628,
   770255983, 1249150122, 1555081692, 1996064986, 2554220882,
   2821834349, 2952996808, 3210313671, 3336571891, 3584528711,
   113926993, 338241895, 666307205, 773529912, 1294757372,
   1396182291, 1695183700, 1986661051, 2177026350, 2456956037,
   2730485921, 2820302411, 3259730800, 3345764771, 3516065817,
   3600352804, 4094571909, 275423344, 430227734, 506948616,
   659060556, 883997877, 958139571, 1322822218, 1537002063,
   1747873779, 1955562222, 2024104815, 2227730452, 2361852424,
   2428436474, 2756734187, 3204031479, 3329325298]

/-- SHA-256 `Ch` function. -/
def shaCh (x y z : Nat) : Nat := Nat.xor (Nat.land x y) (Nat.land (not32 x) z)

/-- SHA-256 `Maj` function. -/
def shaMaj (x y z : Nat) : Nat :=
  Nat.xor (Nat.land x y) (Nat.xor (Nat.land x z) (Nat.land y z))

/-- SHA-256 big sigma-0. -/
def bigSigma0 (x : Nat) : Nat :=
  Nat.xor (rotr32 2 x) (Nat.xor (rotr32 13 x) (rotr32 22 x))

/-- SHA-256 big sigma-1. -/
def bigSigma1 (x : Nat) : Nat :=
  Nat.xor (rotr32 6 x) (Nat.xor (rotr32 11 x) (rotr32 25 x))

/-- SHA-256 small sigma-0. -/
def smallSigma0 (x : Nat) : Nat :=
  Nat.xor (rotr32 7 x) (Nat.xor (rotr32 18 x) (x >>> 3))

/-- SHA-256 small sigma-1. -/
def smallSigma1 (x : Nat) : Nat :=
  Nat.xor (rotr32 17 x) (Nat.xor (rotr32 19 x) (x >>> 10))

/-- Big-endian packing of bytes into 32-bit words. -/
def bytesToWords : List Nat → List Nat
  | b0 :: b1 :: b2 :: b3 :: rest =>
      (b0 * 16777216 + b1 * 65536 + b2 * 256 + b3) :: bytesToWords rest
  | _ => []

/-- Extend the 16 block words to the 64-word SHA-256 message schedule. -/
def msgSchedule (w16 : List Nat) : List Nat :=
  (List.range 48).foldl
    (fun ws _ =>
      let n := ws.length
      ws ++ [mod32 (smallSigma1 (ws.getD (n - 2) 0) + ws.getD (n - 7) 0 +
                    smallSigma0 (ws.getD (n - 15) 0) + ws.getD (n - 16) 0)])
    w16

/-- One SHA-256 round: the state holds the working variables `a`..`h`. -/
def shaRound (s : Sha256State) (wk : Nat × Nat) : Sha256State :=
  let t1 := mod32 (s.h7 + bigSigma1 s.h4 + shaCh s.h4 s.h5 s.h6 + wk.2 + wk.1)
  let t2 := mod32 (bigSigma0 s.h0 + shaMaj s.h0 s.h1 s.h2)
  { h0 := mod32 (t1 + t2), h1 := s.h0, h2 := s.h1, h3 := s.h2,
    h4 := mod32 (s.h3 + t1), h5 := s.h4, h6 := s.h5, h7 := s.h6 }

/-- SHA-256 compression of one 64-byte block into the running state. -/
def sha256Compress (st : Sha256State) (block : List Nat) : Sha256State :=
  let ws := msgSchedule (bytesToWords block)
  let t := (ws.zip shaK).foldl shaRound st
  ⟨mod32 (st.h0 + t.h0), mod32 (st.h1 + t.h1), mod32 (st.h2 + t.h2),
   mod32 (st.h3 + t.h3), mod32 (st.h4 + t.h4), mod32 (st.h5 + t.h5),
   mod32 (st.h6 + t.h6), mod32 (st.h7 + t.h7)⟩

/-- Big-endian 8-byte encoding of the message bit length. -/
def lenBytes (n : Nat) : List Nat :=
  [(n >>> 56) % 256, (n >>> 48) % 256, (n >>> 40) % 256, (n >>> 32) % 256,
   (n >>> 24) % 256, (n >>> 16) % 256, (n >>> 8) % 256, n % 256]

/-- SHA-256 padding: a `0x80` byte, zeros to 56 mod 64, then the bit length. -/
def sha256Pad (msg : List Nat) : List Nat :=
  let z := (119 - msg.length % 64) % 64
  msg ++ [128] ++ List.replicate z 0 ++ lenBytes (8 * msg.length)

/-- Fold the compression function over successive 64-byte blocks; the fuel
is an upper bound on the number of blocks and keeps the recursion
structural. -/
def sha256Loop : Nat → Sha256State → List Nat → Sha256State
  | 0, st, _ => st
  | _ + 1, st, [] => st
  | fuel + 1, st, b :: bs =>
      sha256Loop fuel (sha256Compress st ((b :: bs).take 64)) ((b :: bs).drop 64)

/-- SHA-256 of a byte string, as a final hash state. -/
def sha256 (msg : List Nat) : Sha256State :=
  let padded := sha256Pad msg
  sha256Loop padded.length shaInit padded

/-- Big-endian bytes of a 32-bit word. -/
def wordBytes (w : Nat) : List Nat :=
  [(w >>> 24) % 256, (w >>> 16) % 256, (w >>> 8) % 256, w % 256]

/-- SHA-256 digest of a byte string, as 32 bytes (Python `.digest()`). -/
def sha256Bytes (msg : List Nat) : List Nat :=
  let st := sha256 msg
  wordBytes st.h0 ++ wordBytes st.h1 ++ wordBytes st.h2 ++ wordBytes st.h3 ++
  wordBytes st.h4 ++ wordBytes st.h5 ++ wordBytes st.h6 ++ wordBytes st.h7

/-- Lowercase hexadecimal digit for a nibble. -/
def hexChar (n : Nat) : Char :=
  if n < 10 then Char.ofNat (48 + n) else Char.ofNat (87 + n)

/-- The eight lowercase hex characters of a 32-bit word, most significant
nibble first. -/
def wordHexChars (w : Nat) : List Char :=
  (List.range 8).map (fun i => hexChar ((w >>> (4 * (7 - i))) % 16))

/-- The 64 lowercase hex characters of a hash state
(Python `.hexdigest()`). -/
def digestChars (st : Sha256State) : List Char :=
  wordHexChars st.h0 ++ wordHexChars st.h1 ++ wordHexChars st.h2 ++
  wordHexChars st.h3 ++ wordHexChars st.h4 ++ wordHexChars st.h5 ++
  wordHexChars st.h6 ++ wordHexChars st.h7

/-! ## HMAC (RFC 2104), as provided by Python's `hmac.new` -/

/-- HMAC-SHA256 hex digest of `msg` under `key`
(`hmac.new(key, msg, hashlib.sha256).hexdigest()`): a key longer than the
64-byte block is first hashed, the key is zero-padded to the block size,
and the inner digest is rehashed under the outer padded key. -/
def hmac_sha256_hexdigest (key msg : List Nat) : List Char :=
  let k0 := if 64 < key.length then sha256Bytes key else key
  let kp := k0 ++ List.replicate (64 - k0.length) 0
  let inner := sha256Bytes (kp.map (fun b => Nat.xor b 0x36) ++ msg)
  digestChars (sha256 (kp.map (fun b => Nat.xor b 0x5c) ++ inner))

/-! ## Python string primitives -/

/-- UTF-8 bytes of one code point, as Python `str.encode` produces them. -/
def utf8Bytes (c : Char) : List Nat :=
  let n := c.toNat
  if n < 0x80 then [n]
  else if n < 0x800 then [0xC0 + n / 0x40, 0x80 + n % 0x40]
  else if n < 0x10000 then
    [0xE0 + n / 0x1000, 0x80 + (n / 0x40) % 0x40, 0x80 + n % 0x40]
  else
    [0xF0 + n / 0x40000, 0x80 + (n / 0x1000) % 0x40,
     0x80 + (n / 0x40) % 0x40, 0x80 + n % 0x40]

/-- UTF-8 encoding of a string (Python `str.encode()`). -/
def strBytes (s : String) : List Nat :=
  (s.data.map utf8Bytes).flatten

/-- Python `len` on `str`: the number of code points. -/
def pyLen (s : String) : Nat := s.data.length

/-- Python slicing `s[:n]`: the first `n` code points. -/
def strTake (s : String) (n : Nat) : String := String.mk (s.data.take n)

/-- Python `s.startswith(p)`. -/
def strStartsWith (s p : String) : Bool := p.data.isPrefixOf s.data

/-- Python `s.replace(pat, repl)` on code-point lists: every non-overlapping
occurrence of `pat`, scanned left to right, is replaced by `repl`; the fuel
bounds the number of steps and keeps the recursion structural. -/
def replaceAux (pat repl : List Char) : Nat → List Char → List Char
  | 0, l => l
  | _ + 1, [] => []
  | fuel + 1, c :: rest =>
      if pat ≠ [] ∧ pat.isPrefixOf (c :: rest) then
        repl ++ replaceAux pat repl fuel ((c :: rest).drop pat.length)
      else
        c :: replaceAux pat repl fuel rest

/-- Python `s.replace(pat, repl)` for a non-empty pattern. -/
def pyReplace (s pat repl : String) : String :=
  String.mk (replaceAux pat.data repl.data s.data.length s.data)

/-- Python `a or b` on two `Optional[str]` values: the first operand unless
it is falsy (`None` or the empty string). -/
def pyOr (a b : Option String) : Option String :=
  match a with
  | some s => if s = "" then b else some s
  | none => b

/-- Python truthiness of an `Optional[str]`. -/
def pyTruthy : Option String → Bool
  | none => false
  | some s => decide (s ≠ "")

/-! ## The access-control layer (`app/auth/middleware.py`, `app/main.py`) -/

/-- The user record `get_user_from_api_key` returns and `PermissionChecker`
consumes: a principal with an identifier, a permission set and a tenant. -/
structure Principal where
  user_id : String
  permissions : List String
  tenant_id : String
  deriving DecidableEq

/-- Default of `Settings.api_key_secret` in `app/config.py`, the secret
`app/main.py` passes to `generate_api_key`. -/
def api_key_secret : String := "default_secret"

/-- `generate_api_key` (`middleware.py`): the HMAC-SHA256 hex digest of
`f"{user_id}:{secret}"` keyed by `secret`, truncated to 32 hex characters
and prefixed with the `mcp_` namespace marker. -/
def generate_api_key (user_id secret : String) : String :=
  let message := user_id ++ ":" ++ secret
  let signature := String.mk (hmac_sha256_hexdigest (strBytes secret) (strBytes message))
  "mcp_" ++ strTake signature 32

/-- `validate_permissions` (`middleware.py`):
`any(perm in user_permissions for perm in required_permissions)`. -/
def validate_permissions (required_permissions user_permissions : List String) : Bool :=
  required_permissions.any (fun perm => user_permissions.contains perm)

namespace APIKeyAuth

/-- `APIKeyAuth.verify_api_key` (`middleware.py`): reject unless the key
carries the `mcp_` marker, then accept any key of length above 10. The
`try`/`except` wrapper never fires on a `str` argument. -/
def verify_api_key (api_key : String) : Bool :=
  if !strStartsWith api_key "mcp_" then false
  else decide (10 < pyLen api_key)

end APIKeyAuth

namespace AuthenticationMiddleware

/-- `AuthenticationMiddleware.verify_api_key` (`middleware.py`): the
middleware's own copy of the same check. -/
def verify_api_key (api_key : String) : Bool :=
  if !strStartsWith api_key "mcp_" then false
  else decide (10 < pyLen api_key)

/-- `AuthenticationMiddleware.get_user_from_api_key` (`middleware.py`):
ignores its argument and returns the fixed mock user. -/
def get_user_from_api_key (_api_key : String) : Principal :=
  { user_id := "demo_user",
    permissions := ["viewer", "moderator"],
    tenant_id := "demo_tenant" }

/-- The default excluded paths of `AuthenticationMiddleware.__init__`. -/
def excluded_paths_default : List String :=
  ["/health", "/docs", "/openapi.json", "/redoc"]

/-- The excluded paths `app/main.py` installs the middleware with. -/
def excluded_paths_main : List String :=
  ["/health", "/docs", "/openapi.json", "/redoc", "/generate-api-key"]

/-- The headers `dispatch` reads from an inbound request, and its path. -/
structure Request where
  path : String
  xApiKey : Option String
  authorization : Option String
  deriving DecidableEq

/-- The observable outcome of `dispatch`: pass an excluded path through,
short-circuit with a JSON error response (the downstream handler is not
invoked), or proceed downstream with `request.state.user` and
`request.state.api_key` set. -/
inductive DispatchResult where
  | passthrough : DispatchResult
  | shortCircuit (statusCode : Nat) (detail : String) : DispatchResult
  | proceed (user : Principal) (apiKey : String) : DispatchResult
  deriving DecidableEq

/-- `AuthenticationMiddleware.dispatch` (`middleware.py`): skip excluded
paths; read `X-API-Key` falling back to `Authorization` with Python `or`;
401 "API key required" on a falsy key; strip `Bearer ` occurrences via
`str.replace` when the key starts with `Bearer `; 401 "Invalid API key"
when verification fails; otherwise attach the resolved user and key. -/
def dispatch (excluded_paths : List String) (req : Request) : DispatchResult :=
  if excluded_paths.contains req.path then .passthrough
  else
    let api_key0 := pyOr req.xApiKey req.authorization
    if !pyTruthy api_key0 then .shortCircuit 401 "API key required"
    else
      let raw := api_key0.getD ""
      let api_key :=
        if strStartsWith raw "Bearer " then pyReplace raw "Bearer " "" else raw
      if !verify_api_key api_key then .shortCircuit 401 "Invalid API key"
      else .proceed (get_user_from_api_key api_key) api_key

end AuthenticationMiddleware

/-- The outcome of `PermissionChecker.__call__`: a raised `HTTPException`
with a status code and detail, or the `True` return. -/
inductive PermCheckResult where
  | httpError (statusCode : Nat) (detail : String) : PermCheckResult
  | ok : PermCheckResult
  deriving DecidableEq

namespace PermissionChecker

/-- `PermissionChecker.__call__` (`middleware.py`): 401 "Authentication
required" when no user is attached to the request state, 403 "Insufficient
permissions" when `validate_permissions` rejects, `True` otherwise. -/
def call (required_permissions : List String) (user : Option Principal) :
    PermCheckResult :=
  match user with
  | none => .httpError 401 "Authentication required"
  | some u =>
      if !validate_permissions required_permissions u.permissions then
        .httpError 403 "Insufficient permissions"
      else .ok

end PermissionChecker

/-- The observable outcome of `POST /generate-api-key`: the JSON payload's
`api_key` and `user_id` fields, or a raised `HTTPException`. -/
inductive EndpointResult where
  | okToken (api_key user_id : String) : EndpointResult
  | httpError (statusCode : Nat) (detail : String) : EndpointResult
  deriving DecidableEq

/-- `generate_api_key_endpoint` (`app/main.py`): calls `generate_api_key`
with the configured secret and returns the token; the `except` branch
(HTTP 500) is unreachable because issuance is total on strings. -/
def generate_api_key_endpoint (user_id : String) : EndpointResult :=
  .okToken (generate_api_key user_id api_key_secret) user_id
/-! ## Helper lemmas -/

/-- The hex rendering of a hash state is always 64 characters. -/
theorem digestChars_length (st : Sha256State) : (digestChars st).length = 64 := by
  simp [digestChars, wordHexChars]

/-- An HMAC-SHA256 hex digest is always 64 characters. -/
theorem hmac_hexdigest_length (key msg : List Nat) :
    (hmac_sha256_hexdigest key msg).length = 64 := by
  unfold hmac_sha256_hexdigest
  exact digestChars_length _

/-- Appending a string to itself on the left is a prefix. -/
theorem isPrefixOf_self_append (l m : List Char) : l.isPrefixOf (l ++ m) = true := by
  induction l with
  | nil => simp [List.isPrefixOf]
  | cons c cs ih => simp [List.isPrefixOf, ih]

/-- The code points of a generated key: the marker followed by the first
32 hex characters of the HMAC digest. -/
theorem generate_api_key_data (user_id secret : String) :
    (generate_api_key user_id secret).data =
      "mcp_".data ++
        (hmac_sha256_hexdigest (strBytes secret)
          (strBytes (user_id ++ ":" ++ secret))).take 32 := by
  rfl

/-- Every generated key has exactly 36 code points. -/
theorem generate_api_key_length (user_id secret : String) :
    pyLen (generate_api_key user_id secret) = 36 := by
  have h := hmac_hexdigest_length (strBytes secret) (strBytes (user_id ++ ":" ++ secret))
  simp [pyLen, generate_api_key_data, List.length_take, h]

/-- Every generated key carries the namespace marker. -/
theorem generate_api_key_marker (user_id secret : String) :
    strStartsWith (generate_api_key user_id secret) "mcp_" = true := by
  rw [strStartsWith, generate_api_key_data]
  exact isPrefixOf_self_append _ _

/-- Both verifiers accept every generated key: the marker is present and
36 exceeds the length threshold 10. -/
theorem verify_accepts_generated (user_id secret : String) :
    APIKeyAuth.verify_api_key (generate_api_key user_id secret) = true ∧
    AuthenticationMiddleware.verify_api_key (generate_api_key user_id secret) = true := by
  have hm := generate_api_key_marker user_id secret
  have hl := generate_api_key_length user_id secret
  constructor
  · simp [APIKeyAuth.verify_api_key, hm, hl]
  · simp [AuthenticationMiddleware.verify_api_key, hm, hl]

/-- The sixteen lowercase hex digits. -/
def hexDigitChars : List Char := "0123456789abcdef".data

/-- `hexChar` of a nibble is a lowercase hex digit. -/
theorem hexChar_mem_hexDigits (x : Nat) :
    hexDigitChars.contains (hexChar (x % 16)) = true := by
  have h : x % 16 < 16 := Nat.mod_lt _ (by decide)
  set k := x % 16 with hk
  interval_cases k <;> decide

/-- Every character of a digest's hex rendering is a lowercase hex digit. -/
theorem digestChars_all_hex (st : Sha256State) (c : Char)
    (hc : c ∈ digestChars st) : hexDigitChars.contains c = true := by
  simp [digestChars, wordHexChars] at hc
  rcases hc with h | h | h | h | h | h | h | h <;>
    · obtain ⟨i, _, hi⟩ := h
      rw [← hi]
      exact hexChar_mem_hexDigits _

/-- The HMAC-SHA256 hex digest consists of lowercase hex digits only. -/
theorem hmac_hexdigest_all_hex (key msg : List Nat) :
    (hmac_sha256_hexdigest key msg).all (fun c => hexDigitChars.contains c) = true := by
  rw [List.all_eq_true]
  intro c hc
  unfold hmac_sha256_hexdigest at hc
  exact digestChars_all_hex _ c hc

/-! ## Validation of the embedding against external test vectors -/

set_option maxRecDepth 100000 in
/-- FIPS 180-4 test vector: SHA-256 of `"abc"`. -/
theorem sha256_abc_vector :
    String.mk (digestChars (sha256 (strBytes "abc"))) =
      "ba7816bf8f01cfea414140de5dae2223b00361a396177a9cb410ff61f20015ad" := by
  decide

set_option maxRecDepth 200000 in
/-- Standard HMAC-SHA256 test vector (key `"key"`, the quick-brown-fox
message). -/
theorem hmac_sha256_vector :
    String.mk (hmac_sha256_hexdigest (strBytes "key")
        (strBytes "The quick brown fox jumps over the lazy dog")) =
      "f7bc83f430538424b13298e6aa6fb143ef4d59a14946175997479dbc2d1a3cd8" := by
  decide

set_option maxRecDepth 200000 in
/-- Concrete issuance under the default secret, matching the running
server's output for user `alice`. -/
theorem generate_api_key_alice_vector :
    generate_api_key "alice" "default_secret" =
      "mcp_d0ac87111ce58e65fe668210b03a1336" := by
  decide

/-! ## The claims -/

/-- Claim C1. Round-trip of issuance and verification: the claim asks that
verifying the token issued for principal `P` resolve to a Principal with
identifier `P`. The code violates it: the middleware verifier accepts the
token issued for `alice`, but `get_user_from_api_key` ignores the token
and returns the fixed mock principal `demo_user`, and no store records
the issuance, so resolution cannot depend on `P`. -/
theorem c1_roundtrip_resolution_returns_mock_user :
    AuthenticationMiddleware.verify_api_key
      (generate_api_key "alice" "default_secret") = true ∧
    (AuthenticationMiddleware.get_user_from_api_key
      (generate_api_key "alice" "default_secret")).user_id = "demo_user" ∧
    (((AuthenticationMiddleware.get_user_from_api_key
      (generate_api_key "alice" "default_secret")).user_id == "alice") = false) :=
  ⟨(verify_accepts_generated "alice" "default_secret").2, rfl, by decide⟩

/-- Claim C2. No forged token verifies: the claim asks that every token not
produced by issuance be rejected. The code violates it: both verifiers
accept `"mcp_hello_world"`, a 15-character string that issuance can never
produce, since every issued token has exactly 36 characters. -/
theorem c2_forged_token_is_accepted :
    AuthenticationMiddleware.verify_api_key "mcp_hello_world" = true ∧
    APIKeyAuth.verify_api_key "mcp_hello_world" = true ∧
    ∀ user_id secret,
      ((generate_api_key user_id secret == "mcp_hello_world") = false) := by
  refine ⟨by decide, by decide, fun user_id secret => ?_⟩
  cases h : generate_api_key user_id secret == "mcp_hello_world" with
  | false => rfl
  | true =>
      have heq : generate_api_key user_id secret = "mcp_hello_world" := eq_of_beq h
      have h36 := generate_api_key_length user_id secret
      rw [heq] at h36
      exact absurd h36 (by decide)

/-- Claim C4. Permission evaluation has OR semantics: `validate_permissions`
returns `true` exactly when the required and user permission lists
intersect, a `viewer` principal passes a route requiring
`viewer` or `moderator`, and is denied on a route requiring only
`moderator`. -/
theorem c4_validate_permissions_or_semantics :
    (∀ (required_permissions user_permissions : List String),
      validate_permissions required_permissions user_permissions = true ↔
        ∃ p, p ∈ required_permissions ∧ p ∈ user_permissions) ∧
    validate_permissions ["viewer", "moderator"] ["viewer"] = true ∧
    validate_permissions ["moderator"] ["viewer"] = false := by
  refine ⟨fun required_permissions user_permissions => ?_, by decide, by decide⟩
  simp [validate_permissions, List.any_eq_true]

/-- Claim C4 witness: the OR-semantics equivalence applied at a concrete
intersecting pair. -/
theorem c4_witness :
    validate_permissions ["viewer"] ["moderator", "viewer"] = true :=
  (c4_validate_permissions_or_semantics.1 ["viewer"] ["moderator", "viewer"]).mpr
    ⟨"viewer", by decide, by decide⟩

/-- Claim C5. Unauthenticated is distinct from Forbidden: with no user
attached `PermissionChecker` raises 401, with a user attached whose
permissions fail validation it raises 403, and with a user that passes
validation it returns `True`. -/
theorem c5_unauthenticated_distinct_from_forbidden
    (required_permissions : List String) (u : Principal) :
    PermissionChecker.call required_permissions none =
      .httpError 401 "Authentication required" ∧
    (validate_permissions required_permissions u.permissions = false →
      PermissionChecker.call required_permissions (some u) =
        .httpError 403 "Insufficient permissions") ∧
    (validate_permissions required_permissions u.permissions = true →
      PermissionChecker.call required_permissions (some u) = .ok) := by
  refine ⟨rfl, fun h => ?_, fun h => ?_⟩
  · simp [PermissionChecker.call, h]
  · simp [PermissionChecker.call, h]

/-- Claim C5 witness: the three outcomes at concrete inputs. -/
theorem c5_witness :
    PermissionChecker.call ["moderator"] none =
      .httpError 401 "Authentication required" ∧
    PermissionChecker.call ["moderator"] (some ⟨"alice", ["viewer"], "t0"⟩) =
      .httpError 403 "Insufficient permissions" ∧
    PermissionChecker.call ["viewer"] (some ⟨"alice", ["viewer"], "t0"⟩) =
      .ok :=
  ⟨(c5_unauthenticated_distinct_from_forbidden ["moderator"]
      ⟨"alice", ["viewer"], "t0"⟩).1,
   (c5_unauthenticated_distinct_from_forbidden ["moderator"]
      ⟨"alice", ["viewer"], "t0"⟩).2.1 (by decide),
   (c5_unauthenticated_distinct_from_forbidden ["viewer"]
      ⟨"alice", ["viewer"], "t0"⟩).2.2 (by decide)⟩

/-- Claim C6. The claim asks issuance with an empty identifier to fail with
`InvalidPrincipal` (HTTP 400). The code violates it: neither
`generate_api_key` nor the endpoint checks the identifier, and the empty
identifier yields a normal 36-character token that the verifier accepts. -/
theorem c6_empty_principal_issuance_succeeds :
    generate_api_key_endpoint "" = .okToken (generate_api_key "" api_key_secret) "" ∧
    strStartsWith (generate_api_key "" api_key_secret) "mcp_" = true ∧
    pyLen (generate_api_key "" api_key_secret) = 36 ∧
    AuthenticationMiddleware.verify_api_key (generate_api_key "" api_key_secret) = true :=
  ⟨rfl, generate_api_key_marker _ _, generate_api_key_length _ _,
   (verify_accepts_generated _ _).2⟩

/-- Claim C7. Issuance algorithm: the token is the literal `mcp_` marker
followed by the first 32 characters of the HMAC-SHA256 hex digest of
`user_id ++ ":" ++ secret` keyed by the secret; the digest has 64
lowercase hex characters, and the token has 36 characters. -/
theorem c7_issuance_algorithm (user_id secret : String) :
    generate_api_key user_id secret =
      "mcp_" ++ strTake (String.mk (hmac_sha256_hexdigest (strBytes secret)
          (strBytes (user_id ++ ":" ++ secret)))) 32 ∧
    (hmac_sha256_hexdigest (strBytes secret)
        (strBytes (user_id ++ ":" ++ secret))).length = 64 ∧
    (hmac_sha256_hexdigest (strBytes secret)
        (strBytes (user_id ++ ":" ++ secret))).all
      (fun c => hexDigitChars.contains c) = true ∧
    strStartsWith (generate_api_key user_id secret) "mcp_" = true ∧
    pyLen (generate_api_key user_id secret) = 36 :=
  ⟨rfl, hmac_hexdigest_length _ _, hmac_hexdigest_all_hex _ _,
   generate_api_key_marker _ _, generate_api_key_length _ _⟩

/-- Claim C9. The two verification implementations are extensionally
equal: on every input string the bearer-auth class's verifier and the
middleware's verifier agree. -/
theorem c9_verifiers_extensionally_equal (api_key : String) :
    APIKeyAuth.verify_api_key api_key =
      AuthenticationMiddleware.verify_api_key api_key :=
  rfl

/-- Claim C10. Every issued token passes verification at the boolean
level, for every user id (the empty one included) and every secret: the
token starts with `mcp_` and has 36 characters, above the threshold 10
both verifiers use. -/
theorem c10_issued_tokens_always_verify (user_id secret : String) :
    APIKeyAuth.verify_api_key (generate_api_key user_id secret) = true ∧
    AuthenticationMiddleware.verify_api_key (generate_api_key user_id secret) = true ∧
    strStartsWith (generate_api_key user_id secret) "mcp_" = true ∧
    pyLen (generate_api_key user_id secret) = 36 :=
  ⟨(verify_accepts_generated _ _).1, (verify_accepts_generated _ _).2,
   generate_api_key_marker _ _, generate_api_key_length _ _⟩

/-- Claim C3. Protected-route error responses: on a path outside the
excluded list, a request with neither credential header gets a 401 JSON
response with detail "API key required", and a request whose extracted
and normalized credential the verifier rejects gets a 401 JSON response
with detail "Invalid API key"; in both cases `dispatch` short-circuits,
so the downstream handler is not invoked. -/
theorem c3_protected_route_errors
    (excluded_paths : List String) (req : AuthenticationMiddleware.Request)
    (hpath : excluded_paths.contains req.path = false) :
    (req.xApiKey = none → req.authorization = none →
      AuthenticationMiddleware.dispatch excluded_paths req =
        .shortCircuit 401 "API key required") ∧
    (∀ v, pyOr req.xApiKey req.authorization = some v → v ≠ "" →
      AuthenticationMiddleware.verify_api_key
          (if strStartsWith v "Bearer " then pyReplace v "Bearer " "" else v)
        = false →
      AuthenticationMiddleware.dispatch excluded_paths req =
        .shortCircuit 401 "Invalid API key") := by
  have hmem : req.path ∉ excluded_paths := by simpa using hpath
  constructor
  · intro hx ha
    simp [AuthenticationMiddleware.dispatch, hmem, hx, ha, pyOr, pyTruthy]
  · intro v hv hne hverify
    simp [AuthenticationMiddleware.dispatch, hmem, hv, pyTruthy, hne, hverify]

/-- Claim C3 witness: a missing credential and a rejected credential on a
concrete protected path. -/
theorem c3_witness :
    AuthenticationMiddleware.dispatch AuthenticationMiddleware.excluded_paths_main
        { path := "/mcp/tools", xApiKey := none, authorization := none } =
      .shortCircuit 401 "API key required" ∧
    AuthenticationMiddleware.dispatch AuthenticationMiddleware.excluded_paths_main
        { path := "/mcp/tools", xApiKey := some "garbage", authorization := none } =
      .shortCircuit 401 "Invalid API key" :=
  ⟨(c3_protected_route_errors AuthenticationMiddleware.excluded_paths_main
      { path := "/mcp/tools", xApiKey := none, authorization := none }
      (by decide)).1 rfl rfl,
   (c3_protected_route_errors AuthenticationMiddleware.excluded_paths_main
      { path := "/mcp/tools", xApiKey := some "garbage", authorization := none }
      (by decide)).2 "garbage" (by decide) (by decide) (by decide)⟩

/-- The normalization claim C8 describes, stated in the claim's own words
for comparison with the code: remove the `Bearer ` marker only when it is
the leading seven characters, and remove only that leading occurrence. -/
def strip_bearer_marker_once (v : String) : String :=
  if strStartsWith v "Bearer " then String.mk (v.data.drop 7) else v

/-- Claim C8 counterexample: on the credential
`"Bearer Bearer mcp_0123456789"` the code removes every occurrence of
`"Bearer "` (Python `str.replace`), verifies the result
`"mcp_0123456789"` and proceeds, whereas removing only the leading
occurrence would leave `"Bearer mcp_0123456789"`, which the verifier
rejects; so the code's normalized token is not the claim's. -/
theorem c8_counterexample :
    AuthenticationMiddleware.dispatch AuthenticationMiddleware.excluded_paths_main
        { path := "/mcp/tools", xApiKey := none,
          authorization := some "Bearer Bearer mcp_0123456789" } =
      .proceed (AuthenticationMiddleware.get_user_from_api_key "mcp_0123456789")
        "mcp_0123456789" ∧
    strip_bearer_marker_once "Bearer Bearer mcp_0123456789" =
      "Bearer mcp_0123456789" ∧
    AuthenticationMiddleware.verify_api_key "Bearer mcp_0123456789" = false ∧
    ((pyReplace "Bearer Bearer mcp_0123456789" "Bearer " "" ==
        strip_bearer_marker_once "Bearer Bearer mcp_0123456789") = false) := by
  refine ⟨by decide, by decide, by decide, by decide⟩

/-- Claim C8 as amended: the middleware takes the credential from
`X-API-Key`, falling back to `Authorization` when the former is absent or
empty, and when the value starts with `Bearer ` it removes every
occurrence of the substring `"Bearer "` (Python `str.replace`), not only
the leading one, before invoking the verifier; the dispatch outcome is
then determined by the normalized token. -/
theorem c8_amended_extraction_and_normalization
    (excluded_paths : List String) (req : AuthenticationMiddleware.Request)
    (v : String)
    (hpath : excluded_paths.contains req.path = false)
    (hv : pyOr req.xApiKey req.authorization = some v) (hne : v ≠ "") :
    AuthenticationMiddleware.dispatch excluded_paths req =
      (let tok := if strStartsWith v "Bearer " then pyReplace v "Bearer " "" else v
       if AuthenticationMiddleware.verify_api_key tok then
         .proceed (AuthenticationMiddleware.get_user_from_api_key tok) tok
       else .shortCircuit 401 "Invalid API key") := by
  have hmem : req.path ∉ excluded_paths := by simpa using hpath
  cases hverify : AuthenticationMiddleware.verify_api_key
      (if strStartsWith v "Bearer " then pyReplace v "Bearer " "" else v) with
  | false =>
      simp [AuthenticationMiddleware.dispatch, hmem, hv, pyTruthy, hne, hverify]
  | true =>
      simp [AuthenticationMiddleware.dispatch, hmem, hv, pyTruthy, hne, hverify]

/-- Claim C8 witness: a bearer credential in the `Authorization` header is
normalized and accepted on a concrete protected path. -/
theorem c8_witness :
    AuthenticationMiddleware.dispatch AuthenticationMiddleware.excluded_paths_main
        { path := "/mcp/tools", xApiKey := none,
          authorization := some "Bearer mcp_abcdefgh" } =
      .proceed (AuthenticationMiddleware.get_user_from_api_key "mcp_abcdefgh")
        "mcp_abcdefgh" :=
  (c8_amended_extraction_and_normalization
      AuthenticationMiddleware.excluded_paths_main
      { path := "/mcp/tools", xApiKey := none,
        authorization := some "Bearer mcp_abcdefgh" }
      "Bearer mcp_abcdefgh" (by decide) (by decide) (by decide)).trans (by decide)
